import Mathlib

/-!
# LangSwap — speech-translation pipeline, shallow embedding

This file embeds the stateful logic of the LangSwap voice-translation
pipeline in Lean and proves the specification's claims about it.

Embedded source locations:
* `frontend/app/(tabs)/translate.tsx` — the multi-language `TranslateScreen`
  tab (mock local translation, debounced auto-translate, language swap).
* `frontend/components/SpeechToTranslate.tsx` (the `@react-native-voice`
  variant) — the translator component: `handleTranslate`, `handleSpeak`,
  `handleSwapLanguages`, the `Voice.onSpeech*` callbacks, `startRecording`.
* `unnamed/part_010` — `SpeechRecognitionService` (static capture wrapper).
* `unnamed/part_004` — the lesson screen: `speak`, `toggleMute`, and the
  auto-play-on-reveal effect.

Modelling conventions:
* React `useState` slots become fields of a state record; a handler becomes a
  pure function `State → ... → State` (or returning the state together with
  the lists of outward effects it dispatches in that call).
* JavaScript string state that can be assigned `undefined` is modelled as
  `Option String` (`none` = `undefined`); all other slots stay `String`.
* A `fetch` of the translation endpoint is modelled by an input describing
  the observable outcome (the promise rejecting, `response.json()`
  rejecting, or a parsed JSON body whose `translated` field may be absent).
  Note the source never inspects `response.ok`/`response.status`, so the
  HTTP status code is not an observable of the embedded functions.
* Wall-clock values (`Date.now()` ids, timestamps, the mock 1-second delay,
  the 500 ms debounce delay) are not part of the data the claims are about
  and are omitted from the records; the debounce is modelled by the state
  transition it performs when it fires.
-/

namespace LangSwap

/-- Model of JavaScript `String.prototype.trim()`: strips leading and
trailing whitespace. -/
def jsTrim (s : String) : String :=
  String.mk (((s.data.dropWhile Char.isWhitespace).reverse.dropWhile Char.isWhitespace).reverse)

/-- A request the app POSTs to `/api/translate` (field names follow the
JSON body built in `handleTranslate`). -/
structure TranslationRequest where
  text : String
  source_lang : String
  target_lang : String
deriving DecidableEq, Repr

/-! ## TranslateScreen (`frontend/app/(tabs)/translate.tsx`) -/

namespace TranslateScreen

/-- `interface Language` of `translate.tsx`. -/
structure Language where
  code : String
  name : String
  flag : String
  ttsCode : String
deriving DecidableEq, Repr

/-- The `LANGUAGES` table of `translate.tsx`. -/
def LANGUAGES : List Language :=
  [⟨"en", "English", "🇬🇧", "en-GB"⟩,
   ⟨"th", "Thai", "🇹🇭", "th-TH"⟩,
   ⟨"es", "Spanish", "🇪🇸", "es-ES"⟩,
   ⟨"fr", "French", "🇫🇷", "fr-FR"⟩,
   ⟨"de", "German", "🇩🇪", "de-DE"⟩,
   ⟨"zh", "Chinese", "🇨🇳", "zh-CN"⟩,
   ⟨"ja", "Japanese", "🇯🇵", "ja-JP"⟩,
   ⟨"ko", "Korean", "🇰🇷", "ko-KR"⟩,
   ⟨"ar", "Arabic", "🇸🇦", "ar-SA"⟩,
   ⟨"hi", "Hindi", "🇮🇳", "hi-IN"⟩,
   ⟨"pt", "Portuguese", "🇵🇹", "pt-PT"⟩,
   ⟨"ru", "Russian", "🇷🇺", "ru-RU"⟩,
   ⟨"it", "Italian", "🇮🇹", "it-IT"⟩,
   ⟨"vi", "Vietnamese", "🇻🇳", "vi-VN"⟩]

/-- The `useState` slots of `TranslateScreen`.  This screen has no
translation-history slot at all (compare `SpeechToTranslate.State`). -/
structure State where
  sourceLanguage : Language
  targetLanguage : Language
  sourceText : String
  translatedText : String
  isTranslating : Bool
  isRecording : Bool
  isSpeaking : Bool
deriving DecidableEq, Repr

/-- Initial state: `LANGUAGES[0]` (English) → `LANGUAGES[1]` (Thai),
empty texts, all flags false. -/
def initialState : State :=
  { sourceLanguage := LANGUAGES.getD 0 ⟨"", "", "", ""⟩
    targetLanguage := LANGUAGES.getD 1 ⟨"", "", "", ""⟩
    sourceText := ""
    translatedText := ""
    isTranslating := false
    isRecording := false
    isSpeaking := false }

/-- `swapLanguages` of `translate.tsx`: exchanges source/target language and
simultaneously exchanges source/translated text (all four `set*` calls read
the pre-render closure values, so this is one simultaneous exchange). -/
def swapLanguages (st : State) : State :=
  { st with
    sourceLanguage := st.targetLanguage
    targetLanguage := st.sourceLanguage
    sourceText := st.translatedText
    translatedText := st.sourceText }

/-- `translate` of `translate.tsx`.  There is no `fetch` in this function:
after the mocked 1-second delay it sets the output locally, so the list of
endpoint requests it issues is always empty.  A blank (after `trim`) source
text returns early. -/
def translate (st : State) : State × List TranslationRequest :=
  if jsTrim st.sourceText = "" then (st, [])
  else
    ({ st with
        translatedText := "[" ++ st.targetLanguage.name ++ "] " ++ st.sourceText
        isTranslating := false },
     [])

/-- `recognition.onresult` of `startVoiceRecognition` (web path): stores the
transcript into the source text and clears the recording flag. -/
def onRecognitionResult (st : State) (transcript : String) : State :=
  { st with sourceText := transcript, isRecording := false }

/-- The debounced `useEffect` of `translate.tsx` at the moment its 500 ms
timeout fires: if `sourceText` is truthy (non-empty) it calls `translate`. -/
def debouncedTranslate (st : State) : State × List TranslationRequest :=
  if st.sourceText = "" then (st, []) else translate st

end TranslateScreen

/-! ## SpeechToTranslate (`frontend/components/SpeechToTranslate.tsx`) -/

namespace SpeechToTranslate

/-- `type LanguageMode` from the language-mode context. -/
inductive LanguageMode where
  | learnThai
  | learnEnglish
deriving DecidableEq, Repr

/-- `const sourceLang = languageMode === 'learn-thai' ? 'en' : 'th'`. -/
def sourceLangOf : LanguageMode → String
  | .learnThai => "en"
  | .learnEnglish => "th"

/-- `const targetLang = languageMode === 'learn-thai' ? 'th' : 'en'`. -/
def targetLangOf : LanguageMode → String
  | .learnThai => "th"
  | .learnEnglish => "en"

/-- `interface TranslationHistory` (the `id` and `timestamp` fields are
`Date.now()` clock values and are not modelled).  The `translated` field
stores `data.translated` verbatim, which is absent (`undefined`, here
`none`) when the response body lacks the key. -/
structure HistoryEntry where
  original : String
  translated : Option String
  sourceLang : String
  targetLang : String
deriving DecidableEq, Repr

/-- The user-visible `Alert.alert` notices the component can raise. -/
inductive Notice where
  | emptyInput        -- 'Empty Input' / 'Please enter text to translate'
  | translateFailed   -- 'Error' / 'Failed to translate. Please try again.'
  | ttsNotAvailable   -- 'TTS Not Available'
  | micError          -- 'Microphone Access Needed'
  | startFailed       -- 'Error' or 'Microphone Error' from startRecording
deriving DecidableEq, Repr

/-- Observable outcome of `fetch` plus `response.json()` in
`handleTranslate`.  `fetch` resolves for every HTTP status, so a
non-success response with a JSON body still takes the `json` arm; the
source never reads `response.ok` or `response.status`. -/
inductive FetchOutcome where
  | netError                        -- the fetch promise rejected
  | bodyNotJson                     -- response.json() rejected
  | json (translated : Option String)  -- parsed body; `translated` key may be absent
deriving DecidableEq, Repr

/-- The `useState` slots of `SpeechToTranslate` plus the (context-provided)
language mode.  `translatedText` can be assigned `data.translated`, which
may be `undefined`, hence `Option String`; `inputText` is likewise passed
through `setInputText(translatedText)` on swap, hence `Option String`. -/
structure State where
  languageMode : LanguageMode
  inputText : Option String
  translatedText : Option String
  isTranslating : Bool
  isSpeaking : Bool
  isRecording : Bool
  history : List HistoryEntry
deriving DecidableEq, Repr

/-- Fresh component state in `learn-thai` mode (both texts initialised to
`''`, empty history). -/
def initState : State :=
  { languageMode := .learnThai
    inputText := some ""
    translatedText := some ""
    isTranslating := false
    isSpeaking := false
    isRecording := false
    history := [] }

/-- `handleTranslate`.  Returns `none` where the JavaScript would throw a
`TypeError` (`inputText.trim()` with `inputText === undefined`; the app
never reaches that state through its own handlers).  Otherwise returns the
post-call state, the endpoint requests issued, and the notices raised.
On a parsed JSON body the component unconditionally stores
`data.translated` and prepends a history entry, keeping the previous nine
(`[newEntry, ...history.slice(0, 9)]`). -/
def handleTranslate (st : State) (outcome : FetchOutcome) :
    Option (State × List TranslationRequest × List Notice) :=
  match st.inputText with
  | none => none
  | some input =>
    if jsTrim input = "" then some (st, [], [.emptyInput])
    else
      let req : TranslationRequest :=
        ⟨input, sourceLangOf st.languageMode, targetLangOf st.languageMode⟩
      match outcome with
      | .netError => some ({ st with isTranslating := false }, [req], [.translateFailed])
      | .bodyNotJson => some ({ st with isTranslating := false }, [req], [.translateFailed])
      | .json t =>
          some ({ st with
                   translatedText := t
                   history :=
                     { original := input
                       translated := t
                       sourceLang := sourceLangOf st.languageMode
                       targetLang := targetLangOf st.languageMode } :: st.history.take 9
                   isTranslating := false },
                [req], [])

/-- `handleSwapLanguages`: exchanges the two text slots.  It does not touch
`languageMode` (and hence not the derived `sourceLang`/`targetLang`). -/
def handleSwapLanguages (st : State) : State :=
  { st with inputText := st.translatedText, translatedText := st.inputText }

/-- `handleClear`: resets both texts to `''`. -/
def handleClear (st : State) : State :=
  { st with inputText := some "", translatedText := some "" }

/-! ### Speech synthesis (`handleSpeak` and its three terminal callbacks)

The platform synthesis capability (`expo-speech`) is modelled by the list
of utterances currently dispatched and audible (`active`); `Speech.stop()`
silences them all and `Speech.isSpeakingAsync()` is `active ≠ []`. -/

/-- One dispatched utterance. -/
structure Utterance where
  text : String
  language : String
deriving DecidableEq, Repr

/-- `const langCode = language === 'th' ? 'th-TH' : 'en-GB'`. -/
def langCode (language : String) : String :=
  if language = "th" then "th-TH" else "en-GB"

/-- Synthesis-side state: platform's active utterances plus the component's
`isSpeaking` flag. -/
structure SynthState where
  active : List Utterance
  isSpeaking : Bool
deriving DecidableEq, Repr

/-- `await Speech.stop()`: the platform stops playback of everything
active; the stopped utterance's `onStopped` callback resets the flag. -/
def stopActive (s : SynthState) : SynthState :=
  { s with active := [], isSpeaking := false }

/-- `Speech.speak(text, ...)`: the platform adds the utterance to what it
is playing. -/
def dispatch (s : SynthState) (text language : String) : SynthState :=
  { s with active := s.active ++ [⟨text, langCode language⟩] }

/-- `handleSpeak(text, language)`: falsy text (`undefined` or `''`) returns
early; otherwise, if something is audible it is stopped first, then the
flag is set true and the new utterance dispatched. -/
def handleSpeak (s : SynthState) (text : Option String) (language : String) : SynthState :=
  match text with
  | none => s
  | some t =>
    if t = "" then s
    else
      let s1 := if s.active.isEmpty then s else stopActive s
      let s2 := { s1 with isSpeaking := true }
      dispatch s2 t language

/-- The utterance finished: platform removes it, `onDone` fires,
`setIsSpeaking(false)`. -/
def onDone (s : SynthState) : SynthState :=
  { s with active := [], isSpeaking := false }

/-- The utterance was stopped: platform removes it, `onStopped` fires,
`setIsSpeaking(false)`. -/
def onStopped (s : SynthState) : SynthState :=
  { s with active := [], isSpeaking := false }

/-- Synthesis failed: platform drops the utterance, `onError` fires,
`setIsSpeaking(false)` (and the TTS notice is raised). -/
def onError (s : SynthState) : SynthState :=
  { s with active := [], isSpeaking := false }

/-- The events the synthesis subsystem processes. -/
inductive SynthEv where
  | speak (text : Option String) (language : String)
  | done
  | stopped
  | error
deriving DecidableEq, Repr

/-- One event step of the synthesis subsystem. -/
def synthStep (s : SynthState) : SynthEv → SynthState
  | .speak t l => handleSpeak s t l
  | .done => onDone s
  | .stopped => onStopped s
  | .error => onError s

/-- Run a sequence of synthesis events from the quiescent initial state
(nothing active, flag false). -/
def synthRun (evs : List SynthEv) : SynthState :=
  evs.foldl synthStep ⟨[], false⟩

/-! ### Voice capture callbacks and recording control -/

/-- The `Voice.onSpeech*` callbacks registered in the mount effect. -/
inductive VoiceEv where
  | speechStart
  | speechEnd
  | speechResults (value : List String)
  | speechError
deriving DecidableEq, Repr

/-- The registered callbacks, as set up in the component's mount effect.
`onSpeechResults` stores `e.value[0]` whenever `e.value` is non-empty; no
session identifier is consulted.  The returned lists are the endpoint
requests (always none) and notices raised by the callback. -/
def onVoiceEvent (st : State) : VoiceEv → State × List TranslationRequest × List Notice
  | .speechStart => ({ st with isRecording := true }, [], [])
  | .speechEnd => ({ st with isRecording := false }, [], [])
  | .speechResults [] => (st, [], [])
  | .speechResults (t :: _) => ({ st with inputText := some t }, [], [])
  | .speechError => ({ st with isRecording := false }, [], [.micError])

/-- `startRecording`: sets the recording flag, then `Voice.start(...)`;
`started` is the resolved value of `Voice.start` and `threw` whether it
rejected.  No branch consults the current `isRecording`/listening state. -/
def startRecording (st : State) (started : Bool) (threw : Bool) :
    State × List Notice :=
  if threw then ({ st with isRecording := false }, [.startFailed])
  else if started then ({ st with isRecording := true }, [])
  else ({ st with isRecording := false }, [.startFailed])

end SpeechToTranslate

/-! ## SpeechRecognitionService (`unnamed/part_010`) -/

namespace SpeechRecognitionService

/-- How `startListening` (mobile path) resolves: recognition started, the
'Not Available' alert path, or the catch-all failure path.  The source has
no other outcome — in particular no already-capturing outcome. -/
inductive StartResult where
  | started
  | notAvailable   -- Alert 'Not Available', resolves false
  | failed         -- an exception was caught, resolves false
deriving DecidableEq, Repr

/-- The whole service state: the single static `isListening` boolean. -/
structure SRState where
  isListening : Bool
deriving DecidableEq, Repr

/-- `startMobileSpeechRecognition(language, ...)`: checks only
`Voice.isAvailable()` (`available`) and whether `Voice.start` throws
(`startThrew`); the current `isListening` value is never consulted. -/
def startMobileListening (st : SRState) (available : Bool) (startThrew : Bool) :
    StartResult × SRState :=
  if !available then (.notAvailable, st)
  else if startThrew then (.failed, st)
  else (.started, { st with isListening := true })

/-- `stopListening` (mobile path): `await Voice.stop()` then clear the
flag; if the stop call throws, the error is only logged and the flag is
left as it was. -/
def stopListening (st : SRState) (stopThrew : Bool) : SRState :=
  if stopThrew then st else { st with isListening := false }

end SpeechRecognitionService

/-! ## Lesson screen (`unnamed/part_004`): mute preference and auto-play -/

namespace LessonScreen

/-- One lesson flashcard (`interface LessonItem`; only the two text faces
matter here). -/
structure LessonItem where
  thai : String
  english : String
deriving DecidableEq, Repr

/-- Calls the lesson screen issues to the synthesis capability. -/
inductive SpeechCall where
  | speakCall (text : String) (language : String)
  | stopCall
deriving DecidableEq, Repr

/-- `true` exactly for `Speech.speak` dispatches. -/
def isSpeakCall : SpeechCall → Bool
  | .speakCall _ _ => true
  | .stopCall => false

/-- The user-visible alert the audio logic of the lesson screen raises
from its catch branch (the Audio Feature message of `speak`). -/
inductive LessonNotice where
  | audioUnavailable
deriving DecidableEq, Repr

/-- The lesson-screen state the audio logic reads: the persisted mute
preference, the speaking flag, whether the platform is audibly speaking
(`Speech.isSpeakingAsync()`), the lesson's `language_mode`, and whether the
answer face is showing. -/
structure State where
  isTTSMuted : Bool
  isSpeaking : Bool
  platformSpeaking : Bool
  isEnglishLesson : Bool   -- lesson?.language_mode === 'learn-english'
  showAnswer : Bool
deriving DecidableEq, Repr

/-- `speak(text)` of the lesson screen.  When muted it returns before the
`try` (nothing is dispatched or queued, for every platform behaviour).
Otherwise the `try` body awaits `Speech.isSpeakingAsync()` — whose
rejection (`probeThrew`) enters the catch: flag reset, Audio Feature
alert, zero dispatches — then, if something was audible, awaits
`Speech.stop()` — whose rejection (`stopRejected`) enters the catch after
the stop was dispatched but before `setIsSpeaking(true)` and before any
`Speech.speak` — and finally sets the flag and dispatches exactly one
`Speech.speak`.  The returned lists are the platform calls dispatched and
the notices raised during this call. -/
def speak (st : State) (text : String) (probeThrew stopRejected : Bool) :
    State × List SpeechCall × List LessonNotice :=
  if st.isTTSMuted then (st, [], [])
  else if probeThrew then
    ({ st with isSpeaking := false }, [], [.audioUnavailable])
  else
    let languageCode := if st.isEnglishLesson then "en-GB" else "th-TH"
    if st.platformSpeaking then
      if stopRejected then
        ({ st with isSpeaking := false }, [.stopCall], [.audioUnavailable])
      else
        ({ st with isSpeaking := true, platformSpeaking := true },
         [.stopCall, .speakCall text languageCode], [])
    else
      ({ st with isSpeaking := true, platformSpeaking := true },
       [.speakCall text languageCode], [])

/-- Revealing the answer face: `setShowAnswer(true)` re-renders with
`showAnswer` true, and the auto-play effect then calls `speak` once with
the answer-side text (English word for English lessons, Thai otherwise),
under the given platform behaviour. -/
def revealAnswer (st : State) (item : LessonItem) (probeThrew stopRejected : Bool) :
    State × List SpeechCall × List LessonNotice :=
  let st1 := { st with showAnswer := true }
  speak st1 (if st1.isEnglishLesson then item.english else item.thai) probeThrew stopRejected

/-- `toggleMute`: flips the persisted preference (before the `try`), then
awaits `AsyncStorage.setItem` — whose rejection (`setItemThrew`) is only
logged, skipping the stop entirely — and only then, if now muted while an
utterance is active, awaits `Speech.stop()` and clears the speaking flag;
if that stop rejects (`stopRejected`) it was dispatched but the catch
skips `setIsSpeaking(false)`, leaving the flag (and the platform state, as
far as this model can tell) as they were. -/
def toggleMute (st : State) (setItemThrew stopRejected : Bool) : State × List SpeechCall :=
  let newMuteState := !st.isTTSMuted
  let st1 := { st with isTTSMuted := newMuteState }
  if setItemThrew then (st1, [])
  else if newMuteState && st.isSpeaking then
    if stopRejected then (st1, [.stopCall])
    else ({ st1 with isSpeaking := false, platformSpeaking := false }, [.stopCall])
  else
    (st1, [])

end LessonScreen

/-! ## Harness definitions used by the statements below -/

namespace SpeechToTranslate

/-- The history entry a successful translation of input `p.1` with response
body `{translated: p.2}` creates in mode `mode`. -/
def mkEntry (mode : LanguageMode) (p : String × String) : HistoryEntry :=
  { original := p.1
    translated := some p.2
    sourceLang := sourceLangOf mode
    targetLang := targetLangOf mode }

/-- One successful round trip: the user types `p.1`
(`setInputText`) and presses Translate, and the endpoint answers
`{translated: p.2}`.  (The fallback arm is unreachable: the input was just
set to a string, so `handleTranslate` cannot hit the `undefined` case.) -/
def submitOne (st : State) (p : String × String) : State :=
  match handleTranslate { st with inputText := some p.1 } (.json (some p.2)) with
  | some r => r.1
  | none => st

/-- A sequence of successful translations, oldest first. -/
def runTranslations (st : State) (subs : List (String × String)) : State :=
  subs.foldl submitOne st

/-- State evolution under a sequence of `Voice` callbacks (effects
discarded). -/
def voiceRun (st : State) (evs : List VoiceEv) : State :=
  evs.foldl (fun s e => (onVoiceEvent s e).1) st

/-- Eleven successful translations, oldest first (used to witness the
history bound). -/
def elevenSubmissions : List (String × String) :=
  [("hello", "สวัสดี"), ("one", "หนึ่ง"), ("two", "สอง"), ("three", "สาม"),
   ("four", "สี่"), ("five", "ห้า"), ("six", "หก"), ("seven", "เจ็ด"),
   ("eight", "แปด"), ("nine", "เก้า"), ("ten", "สิบ")]

/-- A component state holding a prior good translation, about to submit
"hello". -/
def pendingState : State :=
  { initState with inputText := some "hello", translatedText := some "previous" }

/-- Component state after the first (terminal) result callback of a
capture delivered the transcript "first". -/
def afterFirstResult : State :=
  (onVoiceEvent initState (.speechResults ["first"])).1

/-- A component state with a question/answer pair on screen, in
`learn-thai` mode (language pair (en, th)). -/
def swapReadyState : State :=
  { initState with inputText := some "hello", translatedText := some "สวัสดี" }

end SpeechToTranslate

namespace LessonScreen

/-- A flashcard used in the witnesses. -/
def sampleItem : LessonItem :=
  { thai := "ไก่", english := "chicken" }

/-- A muted lesson-screen state. -/
def mutedState : State :=
  { isTTSMuted := true, isSpeaking := false, platformSpeaking := false
    isEnglishLesson := false, showAnswer := false }

/-- An unmuted lesson-screen state with an utterance active. -/
def speakingState : State :=
  { isTTSMuted := false, isSpeaking := true, platformSpeaking := true
    isEnglishLesson := false, showAnswer := true }

/-- An unmuted, quiet lesson-screen state about to reveal an answer. -/
def unmutedState : State :=
  { isTTSMuted := false, isSpeaking := false, platformSpeaking := false
    isEnglishLesson := false, showAnswer := false }

end LessonScreen

/-! ## Theorems -/

/-- Taking `n` of an append where the right part was already cut to `n`
is the same as taking `n` of the plain append. -/
theorem take_append_take {α : Type} (A B : List α) (n : Nat) :
    (A ++ B.take n).take n = (A ++ B).take n := by
  rw [List.take_append_eq_append_take, List.take_append_eq_append_take,
    List.take_take, Nat.min_eq_left (Nat.sub_le n A.length)]

/-- Claim C9: on both screens, applying the swap operation twice in
succession (no intervening edits) restores the original language pair and
the original input and output text exactly. -/
theorem c9_swap_round_trip :
    (∀ st : TranslateScreen.State,
      TranslateScreen.swapLanguages (TranslateScreen.swapLanguages st) = st)
    ∧ (∀ st : SpeechToTranslate.State,
      SpeechToTranslate.handleSwapLanguages (SpeechToTranslate.handleSwapLanguages st) = st) :=
  ⟨fun _ => rfl, fun _ => rfl⟩

/-- Claim C10: on the multi-language TranslateScreen tab, `translate` never
issues a request to the translation endpoint; for a source text that is
non-blank after trimming, the output becomes
`"[" ++ targetLanguage.name ++ "] " ++ sourceText`; for a blank source the
call is a no-op.  (The screen's state record has no history slot, so no
translation history exists on this tab.) -/
theorem c10_mock_translate_is_local_and_deterministic :
    (∀ st : TranslateScreen.State, (TranslateScreen.translate st).2 = [])
    ∧ (∀ st : TranslateScreen.State, jsTrim st.sourceText ≠ "" →
        (TranslateScreen.translate st).1.translatedText
          = "[" ++ st.targetLanguage.name ++ "] " ++ st.sourceText)
    ∧ (∀ st : TranslateScreen.State, jsTrim st.sourceText = "" →
        TranslateScreen.translate st = (st, [])) := by
  refine ⟨fun st => ?_, fun st h => ?_, fun st h => ?_⟩
  · by_cases h : jsTrim st.sourceText = "" <;> simp [TranslateScreen.translate, h]
  · simp [TranslateScreen.translate, h]
  · simp [TranslateScreen.translate, h]

/-- Witness for C10 at a concrete state: source text "hello" targeting
Thai yields "[Thai] hello". -/
theorem c10_witness :
    jsTrim ({ TranslateScreen.initialState with sourceText := "hello" } :
        TranslateScreen.State).sourceText ≠ ""
    ∧ (TranslateScreen.translate
        { TranslateScreen.initialState with sourceText := "hello" }).1.translatedText
        = "[Thai] hello" :=
  ⟨by decide,
   c10_mock_translate_is_local_and_deterministic.2.1
     { TranslateScreen.initialState with sourceText := "hello" } (by decide)⟩

/-- Claim C6 counterexample: in the `SpeechToTranslate` component, with
language pair (en, th) (mode learn-thai), input "hello" and output
"สวัสดี", `handleSwapLanguages` exchanges the two texts but leaves the
language pair at (en, th) — not the (th, en) the claim requires. -/
theorem c6_counterexample_component_swap_keeps_language_pair :
    (SpeechToTranslate.sourceLangOf SpeechToTranslate.swapReadyState.languageMode,
     SpeechToTranslate.targetLangOf SpeechToTranslate.swapReadyState.languageMode)
      = ("en", "th")
    ∧ (SpeechToTranslate.handleSwapLanguages SpeechToTranslate.swapReadyState).inputText
        = some "สวัสดี"
    ∧ (SpeechToTranslate.handleSwapLanguages SpeechToTranslate.swapReadyState).translatedText
        = some "hello"
    ∧ (SpeechToTranslate.sourceLangOf
          (SpeechToTranslate.handleSwapLanguages SpeechToTranslate.swapReadyState).languageMode,
       SpeechToTranslate.targetLangOf
          (SpeechToTranslate.handleSwapLanguages SpeechToTranslate.swapReadyState).languageMode)
      ≠ ("th", "en") := by
  refine ⟨rfl, rfl, rfl, by decide⟩

/-- Claim C6 (amended): on the TranslateScreen tab, swap exchanges both the
language pair and the two texts; in the SpeechToTranslate component, swap
exchanges only the input/output texts while the language mode (and hence
the derived language pair) and the history are unchanged. -/
theorem c6_amended_swap_exchanges :
    (∀ st : TranslateScreen.State,
      (TranslateScreen.swapLanguages st).sourceLanguage = st.targetLanguage
      ∧ (TranslateScreen.swapLanguages st).targetLanguage = st.sourceLanguage
      ∧ (TranslateScreen.swapLanguages st).sourceText = st.translatedText
      ∧ (TranslateScreen.swapLanguages st).translatedText = st.sourceText)
    ∧ (∀ st : SpeechToTranslate.State,
      (SpeechToTranslate.handleSwapLanguages st).inputText = st.translatedText
      ∧ (SpeechToTranslate.handleSwapLanguages st).translatedText = st.inputText
      ∧ (SpeechToTranslate.handleSwapLanguages st).languageMode = st.languageMode
      ∧ (SpeechToTranslate.handleSwapLanguages st).history = st.history) :=
  ⟨fun _ => ⟨rfl, rfl, rfl, rfl⟩, fun _ => ⟨rfl, rfl, rfl, rfl⟩⟩

/-- Claim C2 counterexample: a `startListening` issued while the service is
already listening (flag true, capability available, no exception) resolves
as `started` — a success, not an `AlreadyCapturing` failure — and the flag
stays true. -/
theorem c2_counterexample_start_while_listening_succeeds :
    SpeechRecognitionService.startMobileListening ⟨true⟩ true false
      = (SpeechRecognitionService.StartResult.started, ⟨true⟩) := by
  decide

/-- Claim C2 (amended): the capture service tracks listening in one static
boolean, so at most one listening session exists; but a start issued while
already listening does not fail: the available branch always resolves
`started` and sets the flag true (regardless of its prior value), the
unavailable branch resolves `notAvailable`, and an exception resolves
`failed` — there is no `AlreadyCapturing` outcome. -/
theorem c2_amended_single_flag_without_already_capturing_error :
    (∀ b : Bool, SpeechRecognitionService.startMobileListening ⟨b⟩ true false
      = (SpeechRecognitionService.StartResult.started, ⟨true⟩))
    ∧ (∀ b : Bool, SpeechRecognitionService.startMobileListening ⟨b⟩ false false
      = (SpeechRecognitionService.StartResult.notAvailable, ⟨b⟩))
    ∧ (∀ b : Bool, SpeechRecognitionService.startMobileListening ⟨b⟩ true true
      = (SpeechRecognitionService.StartResult.failed, ⟨b⟩)) :=
  ⟨fun _ => rfl, fun _ => rfl, fun _ => rfl⟩

/-- Claim C5 counterexample: after the first terminal callback of a capture
delivered the transcript "first", a further `onSpeechResults` callback is
not a no-op — it overwrites the input text with the stale value. -/
theorem c5_counterexample_stale_result_overwrites_input :
    SpeechToTranslate.afterFirstResult.inputText = some "first"
    ∧ (SpeechToTranslate.onVoiceEvent SpeechToTranslate.afterFirstResult
        (.speechResults ["stale"])).1.inputText = some "stale"
    ∧ (SpeechToTranslate.onVoiceEvent SpeechToTranslate.afterFirstResult
        (.speechResults ["stale"])).1 ≠ SpeechToTranslate.afterFirstResult := by
  refine ⟨rfl, rfl, by decide⟩

/-- Claim C5 (amended): the `Voice` callbacks carry no session identifier
and are never discarded: after any prior callback sequence whatsoever, a
further `onSpeechResults` with a non-empty value overwrites the input text
with its first element, and a further `onSpeechError` resets the recording
flag and raises the microphone notice; only an empty value array leaves the
state unchanged. -/
theorem c5_amended_callbacks_unguarded :
    (∀ (evs : List SpeechToTranslate.VoiceEv) (t : String) (rest : List String),
      (SpeechToTranslate.voiceRun SpeechToTranslate.initState
        (evs ++ [.speechResults (t :: rest)])).inputText = some t)
    ∧ (∀ (evs : List SpeechToTranslate.VoiceEv),
      (SpeechToTranslate.voiceRun SpeechToTranslate.initState
        (evs ++ [.speechError])).isRecording = false)
    ∧ (∀ st : SpeechToTranslate.State,
      SpeechToTranslate.onVoiceEvent st (.speechResults []) = (st, [], [])) := by
  refine ⟨fun evs t rest => ?_, fun evs => ?_, fun st => rfl⟩
  · rw [SpeechToTranslate.voiceRun, List.foldl_append]
    rfl
  · rw [SpeechToTranslate.voiceRun, List.foldl_append]
    rfl

/-- Claim C7 counterexample: on the TranslateScreen tab, a capture
transcript does not only populate the input field — the debounced effect
then runs the mock translate with no user submit, overwriting the output
(from "" to "[Thai] hi"). -/
theorem c7_counterexample_capture_triggers_auto_translate :
    TranslateScreen.initialState.translatedText = ""
    ∧ (TranslateScreen.debouncedTranslate
        (TranslateScreen.onRecognitionResult TranslateScreen.initialState "hi")).1.translatedText
      = "[Thai] hi"
    ∧ (TranslateScreen.debouncedTranslate
        (TranslateScreen.onRecognitionResult TranslateScreen.initialState "hi")).1.translatedText
      ≠ TranslateScreen.initialState.translatedText := by
  refine ⟨rfl, by decide, by decide⟩

/-- Claim C7 (amended): in the SpeechToTranslate component a capture
transcript only populates the input text — the voice callbacks never issue
an endpoint request — and a request is built only by `handleTranslate`
(the explicit Translate press); on the TranslateScreen tab, however, a
delivered transcript that is non-blank after trimming automatically
triggers the local mock translate once the 500 ms debounce fires (still
issuing no endpoint request). -/
theorem c7_amended_no_auto_submit_only_in_component :
    (∀ (st : SpeechToTranslate.State) (e : SpeechToTranslate.VoiceEv),
      (SpeechToTranslate.onVoiceEvent st e).2.1 = [])
    ∧ (∀ (st : SpeechToTranslate.State) (t : String) (rest : List String),
      (SpeechToTranslate.onVoiceEvent st (.speechResults (t :: rest))).1
        = { st with inputText := some t })
    ∧ (∀ (st : TranslateScreen.State) (t : String), jsTrim t ≠ "" →
      (TranslateScreen.debouncedTranslate (TranslateScreen.onRecognitionResult st t)).1.translatedText
        = "[" ++ st.targetLanguage.name ++ "] " ++ t
      ∧ (TranslateScreen.debouncedTranslate (TranslateScreen.onRecognitionResult st t)).2 = []) := by
  refine ⟨fun st e => ?_, fun st t rest => rfl, fun st t h => ?_⟩
  · cases e with
    | speechResults v => cases v <;> rfl
    | speechStart => rfl
    | speechEnd => rfl
    | speechError => rfl
  · have ht : t ≠ "" := by
      intro h0
      exact h (by rw [h0]; rfl)
    constructor <;>
      simp [TranslateScreen.debouncedTranslate, TranslateScreen.onRecognitionResult,
        TranslateScreen.translate, h, ht]

/-- Witness for the amended C7 at a concrete input: transcript "hi" on the
initial TranslateScreen state. -/
theorem c7_amended_witness :
    jsTrim "hi" ≠ ""
    ∧ (TranslateScreen.debouncedTranslate
        (TranslateScreen.onRecognitionResult TranslateScreen.initialState "hi")).1.translatedText
      = "[Thai] hi" :=
  ⟨by decide,
   (c7_amended_no_auto_submit_only_in_component.2.2
      TranslateScreen.initialState "hi" (by decide)).1⟩

/-- Every single synthesis event keeps at most one utterance active. -/
theorem synthStep_active_le_one (s : SpeechToTranslate.SynthState)
    (e : SpeechToTranslate.SynthEv) (h : s.active.length ≤ 1) :
    (SpeechToTranslate.synthStep s e).active.length ≤ 1 := by
  cases e with
  | speak t l =>
    cases t with
    | none => exact h
    | some t =>
      by_cases ht : t = ""
      · simpa [SpeechToTranslate.synthStep, SpeechToTranslate.handleSpeak, ht] using h
      · by_cases ha : s.active.isEmpty
        · simp [SpeechToTranslate.synthStep, SpeechToTranslate.handleSpeak, ht, ha,
            SpeechToTranslate.dispatch, SpeechToTranslate.stopActive,
            List.isEmpty_iff.mp ha]
        · simp [SpeechToTranslate.synthStep, SpeechToTranslate.handleSpeak, ht, ha,
            SpeechToTranslate.dispatch, SpeechToTranslate.stopActive]
  | done => simp [SpeechToTranslate.synthStep, SpeechToTranslate.onDone]
  | stopped => simp [SpeechToTranslate.synthStep, SpeechToTranslate.onStopped]
  | error => simp [SpeechToTranslate.synthStep, SpeechToTranslate.onError]

/-- The at-most-one-active invariant is preserved along any event list. -/
theorem synthFold_active_le_one (evs : List SpeechToTranslate.SynthEv) :
    ∀ s : SpeechToTranslate.SynthState, s.active.length ≤ 1 →
      (evs.foldl SpeechToTranslate.synthStep s).active.length ≤ 1 := by
  induction evs with
  | nil => exact fun s h => h
  | cons e rest ih =>
    exact fun s h => ih (SpeechToTranslate.synthStep s e) (synthStep_active_le_one s e h)

/-- Claim C1: for every sequence of synthesis events from the quiescent
state, at most one utterance is active at any instant; a non-blank
`handleSpeak` leaves exactly the new utterance active (the prior one is
stopped before the new dispatch) and sets the speaking flag; and each of
the three terminal callbacks (`onDone`, `onStopped`, `onError`) resets the
`isSpeaking` flag to false. -/
theorem c1_synthesis_exclusivity_and_flag_convergence :
    (∀ evs : List SpeechToTranslate.SynthEv,
      (SpeechToTranslate.synthRun evs).active.length ≤ 1)
    ∧ (∀ (s : SpeechToTranslate.SynthState) (t l : String),
      (SpeechToTranslate.handleSpeak s (some t) l).active
        = if t = "" then s.active else [⟨t, SpeechToTranslate.langCode l⟩])
    ∧ (∀ (s : SpeechToTranslate.SynthState) (t l : String),
      (SpeechToTranslate.handleSpeak s (some t) l).isSpeaking
        = if t = "" then s.isSpeaking else true)
    ∧ (∀ s : SpeechToTranslate.SynthState,
      (SpeechToTranslate.onDone s).isSpeaking = false
      ∧ (SpeechToTranslate.onStopped s).isSpeaking = false
      ∧ (SpeechToTranslate.onError s).isSpeaking = false) := by
  refine ⟨fun evs => synthFold_active_le_one evs ⟨[], false⟩ (by simp),
    fun s t l => ?_, fun s t l => ?_, fun s => ⟨rfl, rfl, rfl⟩⟩
  · by_cases ht : t = ""
    · simp [SpeechToTranslate.handleSpeak, ht]
    · by_cases ha : s.active.isEmpty
      · simp [SpeechToTranslate.handleSpeak, ht, ha, SpeechToTranslate.dispatch,
          SpeechToTranslate.stopActive, List.isEmpty_iff.mp ha]
      · simp [SpeechToTranslate.handleSpeak, ht, ha, SpeechToTranslate.dispatch,
          SpeechToTranslate.stopActive]
  · by_cases ht : t = ""
    · simp [SpeechToTranslate.handleSpeak, ht]
    · by_cases ha : s.active.isEmpty <;>
        simp [SpeechToTranslate.handleSpeak, ht, ha, SpeechToTranslate.dispatch,
          SpeechToTranslate.stopActive]

/-- Claim C8 counterexample: in the unmuted, quiet state, a reveal during
which the awaited `Speech.isSpeakingAsync()` rejects enters the catch and
issues zero `Speech.speak` dispatches — not the exactly one the claim
requires — raising the audio alert instead; and toggling mute in the
unmuted speaking state while the awaited `AsyncStorage.setItem` rejects
issues no `Speech.stop` at all and leaves the speaking flag set, so the
active utterance is not stopped. -/
theorem c8_counterexample_catch_paths_break_the_unconditional_claim :
    ((LessonScreen.revealAnswer LessonScreen.unmutedState LessonScreen.sampleItem
        true false).2.1.countP LessonScreen.isSpeakCall) = 0
    ∧ (LessonScreen.revealAnswer LessonScreen.unmutedState LessonScreen.sampleItem
        true false).2.2 = [.audioUnavailable]
    ∧ LessonScreen.toggleMute LessonScreen.speakingState true false
        = ({ LessonScreen.speakingState with isTTSMuted := true }, [])
    ∧ (LessonScreen.toggleMute LessonScreen.speakingState true false).1.isSpeaking = true := by
  refine ⟨by decide, by decide, by decide, by decide⟩

/-- Claim C8 (amended): with the mute preference true, revealing a
flashcard answer issues zero synthesis calls — suppressed entirely, not
queued, unconditionally (the mute check precedes the `try`).  With mute
false, exactly one `Speech.speak` dispatch is issued per reveal when the
awaited platform calls resolve; if the availability probe rejects, the
catch issues zero speak dispatches, raises the audio alert and resets the
speaking flag.  Toggling mute to true while an utterance is active
immediately issues `Speech.stop` and clears the speaking flag provided the
awaited preference write resolves; if that write rejects, the catch skips
the stop entirely; if the stop call itself rejects, it was dispatched but
the speaking flag is not cleared. -/
theorem c8_amended_mute_suppression_and_guarded_stop :
    (∀ (st : LessonScreen.State) (item : LessonScreen.LessonItem) (pt sr : Bool),
      st.isTTSMuted = true →
        LessonScreen.revealAnswer st item pt sr = ({ st with showAnswer := true }, [], []))
    ∧ (∀ (st : LessonScreen.State) (item : LessonScreen.LessonItem),
      st.isTTSMuted = false →
        ((LessonScreen.revealAnswer st item false false).2.1.countP LessonScreen.isSpeakCall) = 1)
    ∧ (∀ (st : LessonScreen.State) (item : LessonScreen.LessonItem) (sr : Bool),
      st.isTTSMuted = false →
        ((LessonScreen.revealAnswer st item true sr).2.1.countP LessonScreen.isSpeakCall) = 0
        ∧ (LessonScreen.revealAnswer st item true sr).2.2 = [.audioUnavailable]
        ∧ (LessonScreen.revealAnswer st item true sr).1.isSpeaking = false)
    ∧ (∀ st : LessonScreen.State,
      st.isTTSMuted = false → st.isSpeaking = true →
        LessonScreen.toggleMute st false false
          = ({ st with isTTSMuted := true, isSpeaking := false, platformSpeaking := false },
             [.stopCall]))
    ∧ (∀ st : LessonScreen.State,
      st.isTTSMuted = false → st.isSpeaking = true →
        LessonScreen.toggleMute st true false = ({ st with isTTSMuted := true }, []))
    ∧ (∀ st : LessonScreen.State,
      st.isTTSMuted = false → st.isSpeaking = true →
        LessonScreen.toggleMute st false true
          = ({ st with isTTSMuted := true }, [.stopCall])) := by
  refine ⟨fun st item pt sr h => ?_, fun st item h => ?_, fun st item sr h => ?_,
    fun st h1 h2 => ?_, fun st h1 h2 => ?_, fun st h1 h2 => ?_⟩
  · simp [LessonScreen.revealAnswer, LessonScreen.speak, h]
  · by_cases hp : st.platformSpeaking <;>
      simp [LessonScreen.revealAnswer, LessonScreen.speak, LessonScreen.isSpeakCall, h, hp,
        List.countP_cons]
  · simp [LessonScreen.revealAnswer, LessonScreen.speak, h]
  · simp [LessonScreen.toggleMute, h1, h2]
  · simp [LessonScreen.toggleMute, h1]
  · simp [LessonScreen.toggleMute, h1, h2]

/-- Witness for the amended C8 at concrete states: a muted reveal
dispatches nothing; an unmuted reveal on a resolving platform dispatches
exactly one speak; an unmuted reveal whose probe rejects dispatches none
and alerts; toggling mute in the speaking state stops immediately when the
write resolves and skips the stop when it rejects. -/
theorem c8_amended_witness :
    LessonScreen.mutedState.isTTSMuted = true
    ∧ LessonScreen.revealAnswer LessonScreen.mutedState LessonScreen.sampleItem false false
        = ({ LessonScreen.mutedState with showAnswer := true }, [], [])
    ∧ ((LessonScreen.revealAnswer LessonScreen.speakingState LessonScreen.sampleItem
          false false).2.1.countP LessonScreen.isSpeakCall) = 1
    ∧ ((LessonScreen.revealAnswer LessonScreen.unmutedState LessonScreen.sampleItem
          true false).2.1.countP LessonScreen.isSpeakCall) = 0
    ∧ LessonScreen.toggleMute LessonScreen.speakingState false false
        = ({ LessonScreen.speakingState with
              isTTSMuted := true, isSpeaking := false, platformSpeaking := false },
           [.stopCall])
    ∧ LessonScreen.toggleMute LessonScreen.speakingState true false
        = ({ LessonScreen.speakingState with isTTSMuted := true }, []) :=
  ⟨rfl,
   c8_amended_mute_suppression_and_guarded_stop.1 LessonScreen.mutedState
     LessonScreen.sampleItem false false rfl,
   c8_amended_mute_suppression_and_guarded_stop.2.1 LessonScreen.speakingState
     LessonScreen.sampleItem rfl,
   (c8_amended_mute_suppression_and_guarded_stop.2.2.1 LessonScreen.unmutedState
     LessonScreen.sampleItem false rfl).1,
   c8_amended_mute_suppression_and_guarded_stop.2.2.2.1 LessonScreen.speakingState rfl rfl,
   c8_amended_mute_suppression_and_guarded_stop.2.2.2.2.1 LessonScreen.speakingState rfl rfl⟩

/-- One successful translation of a non-blank input: the output is
overwritten, and one entry is prepended while keeping the previous nine. -/
theorem submitOne_eq (st : SpeechToTranslate.State) (p : String × String)
    (h : jsTrim p.1 ≠ "") :
    SpeechToTranslate.submitOne st p
      = { st with
          inputText := some p.1
          translatedText := some p.2
          history := SpeechToTranslate.mkEntry st.languageMode p :: st.history.take 9
          isTranslating := false } := by
  simp [SpeechToTranslate.submitOne, SpeechToTranslate.handleTranslate,
    SpeechToTranslate.mkEntry, h]

/-- Running a list of successful non-blank translations: the language mode
is untouched and the history is the reversed submission list prepended to
the prior history, cut to ten. -/
theorem runTranslations_history (subs : List (String × String)) :
    ∀ st : SpeechToTranslate.State, (∀ p ∈ subs, jsTrim p.1 ≠ "") →
      st.history.length ≤ 10 →
      (SpeechToTranslate.runTranslations st subs).languageMode = st.languageMode
      ∧ (SpeechToTranslate.runTranslations st subs).history
        = (subs.reverse.map (SpeechToTranslate.mkEntry st.languageMode) ++ st.history).take 10 := by
  induction subs with
  | nil =>
    intro st h hb
    refine ⟨rfl, ?_⟩
    simp [SpeechToTranslate.runTranslations, List.take_of_length_le hb]
  | cons p rest ih =>
    intro st h hb
    have hp : jsTrim p.1 ≠ "" := h p (List.mem_cons_self p rest)
    have hrest : ∀ q ∈ rest, jsTrim q.1 ≠ "" := fun q hq => h q (List.mem_cons_of_mem p hq)
    have hfold : SpeechToTranslate.runTranslations st (p :: rest)
        = SpeechToTranslate.runTranslations (SpeechToTranslate.submitOne st p) rest := rfl
    have hb2 : (SpeechToTranslate.submitOne st p).history.length ≤ 10 := by
      rw [submitOne_eq st p hp]
      simp only [List.length_cons, List.length_take]
      omega
    obtain ⟨hmode, hhist⟩ := ih (SpeechToTranslate.submitOne st p) hrest hb2
    rw [submitOne_eq st p hp] at hmode hhist
    refine ⟨by rw [hfold, submitOne_eq st p hp]; exact hmode, ?_⟩
    rw [hfold, submitOne_eq st p hp]
    simp only at hhist
    rw [hhist]
    rw [show (SpeechToTranslate.mkEntry st.languageMode p :: st.history.take 9)
          = (SpeechToTranslate.mkEntry st.languageMode p :: st.history).take 10
        from rfl]
    rw [take_append_take]
    simp [List.reverse_cons]

/-- Claim C3: starting from the fresh component state, after any sequence
of N successful translations of non-blank inputs with N > 10, the history
holds exactly the 10 most recent entries in reverse-chronological order
(each recording the submitted input, the response's translated text and
the active language pair), the older ones having been evicted. -/
theorem c3_history_bound_order_and_content (subs : List (String × String))
    (hne : ∀ p ∈ subs, jsTrim p.1 ≠ "") (hlen : 10 < subs.length) :
    (SpeechToTranslate.runTranslations SpeechToTranslate.initState subs).history
      = (subs.reverse.take 10).map (SpeechToTranslate.mkEntry .learnThai)
    ∧ (SpeechToTranslate.runTranslations SpeechToTranslate.initState subs).history.length
      = 10 := by
  obtain ⟨hmode, hhist⟩ :=
    runTranslations_history subs SpeechToTranslate.initState hne (by decide)
  have hinit : SpeechToTranslate.initState.history = [] := rfl
  rw [hinit, List.append_nil] at hhist
  constructor
  · rw [hhist, ← List.map_take]
    rfl
  · rw [hhist, List.length_take, List.length_map, List.length_reverse]
    omega

/-- Witness for C3: eleven concrete successful translations leave exactly
the ten most recent entries, newest first, the first submission evicted. -/
theorem c3_witness :
    (∀ p ∈ SpeechToTranslate.elevenSubmissions, jsTrim p.1 ≠ "")
    ∧ 10 < SpeechToTranslate.elevenSubmissions.length
    ∧ ((SpeechToTranslate.runTranslations SpeechToTranslate.initState
          SpeechToTranslate.elevenSubmissions).history
        = (SpeechToTranslate.elevenSubmissions.reverse.take 10).map
            (SpeechToTranslate.mkEntry .learnThai)
      ∧ (SpeechToTranslate.runTranslations SpeechToTranslate.initState
          SpeechToTranslate.elevenSubmissions).history.length = 10) :=
  ⟨by decide, by decide,
   c3_history_bound_order_and_content SpeechToTranslate.elevenSubmissions
     (by decide) (by decide)⟩

/-- Claim C4 (the code on the failing input): submitting "hello" while the
endpoint answers with a JSON body that has no `translated` key (as a
non-success response does) is treated as a success: the prior output
"previous" is overwritten with `undefined`, a history entry with an
`undefined` translation is appended, and no notice is raised.  The thrown
failure paths (`fetch` rejection, non-JSON body) do behave as the claim
says: state unchanged, one notice, no history entry, no retry. -/
theorem c4_nonsuccess_json_response_clobbers_output :
    SpeechToTranslate.handleTranslate SpeechToTranslate.pendingState (.json none)
      = some ({ SpeechToTranslate.pendingState with
                  translatedText := none
                  history := [{ original := "hello", translated := none,
                                sourceLang := "en", targetLang := "th" }] },
              [⟨"hello", "en", "th"⟩], [])
    ∧ SpeechToTranslate.handleTranslate SpeechToTranslate.pendingState .netError
      = some (SpeechToTranslate.pendingState, [⟨"hello", "en", "th"⟩], [.translateFailed])
    ∧ SpeechToTranslate.handleTranslate SpeechToTranslate.pendingState .bodyNotJson
      = some (SpeechToTranslate.pendingState, [⟨"hello", "en", "th"⟩], [.translateFailed]) := by
  refine ⟨by decide, by decide, by decide⟩

end LangSwap
